import Mathlib

/-!
Shallow embedding of `sqliteDB.py` (class `SQLiteORM`) from the DBWork
repository, together with proofs settling the frozen claims about its
transaction wrapper, query building and error handling.

The underlying sqlite engine is out of scope of the repository (the spec
treats it as a collaborator), so it is modelled here as a small relational
store with an explicit-transaction snapshot, a closed flag, a trace of the
calls the ORM issues to it, and a set of fault switches describing which
engine calls the environment makes fail (`sqlite3.Error` is fallible on any
call, so each call site category gets a switch).
-/

set_option autoImplicit false

namespace DBWork

/-- A Python runtime value as used by the ORM: `int`, `str`, `float`,
`bytes`, `None`.  Reals are abstracted to rationals and byte strings to
byte lists; no claim depends on their arithmetic. -/
inductive Value where
  | vInt (i : Int)
  | vStr (s : String)
  | vReal (q : Rat)
  | vBlob (bs : List Nat)
  | vNull
deriving DecidableEq, Repr

/-- Python `f"{value}"` as it appears when `delete` interpolates a value
into the SQL text.  Exact for `int` and `str` (the cases exercised by the
repository's tests); real/bytes/None renderings are abstracted. -/
def pyStr : Value → String
  | Value.vInt i => toString i
  | Value.vStr s => s
  | Value.vReal q => toString q
  | Value.vBlob bs => "b\x27" ++ String.intercalate " " (bs.map toString) ++ "\x27"
  | Value.vNull => "None"

/-- One table of the store: declared column names (in order), their declared
type strings, and the rows (each row ordered like `cols`). -/
structure Table where
  cols : List String
  types : List String
  rows : List (List Value)
deriving DecidableEq, Repr

/-- The database: an association of table names to tables. -/
abbrev Db := List (String × Table)

/-- One call the ORM issues to the engine, as recorded in the trace:
`connection.commit()`, `connection.rollback()`, or an `execute` with its
SQL text and its bound parameters. -/
inductive EngineCall where
  | commitCall
  | rollbackCall
  | execCall (sql : String) (params : List Value)
deriving DecidableEq, Repr

/-- Environment fault switches: which categories of engine calls raise
`sqlite3.Error` when issued. -/
structure Faults where
  pragmaFault : Bool := false
  selectFault : Bool := false
  dmlFault : Bool := false
  beginFault : Bool := false
  commitFault : Bool := false
  rollbackFault : Bool := false
deriving DecidableEq, Repr

/-- The sqlite connection as the ORM sees it: current data, the snapshot
taken by an explicit `BEGIN` (present iff an engine-level transaction is
open), the closed flag, the fault switches and the call trace. -/
structure Engine where
  db : Db
  snapshot : Option Db
  closed : Bool
  faults : Faults
  trace : List EngineCall
deriving DecidableEq, Repr

/-- Association-list lookup of a table by name. -/
def findTable (db : Db) (t : String) : Option Table :=
  match db with
  | [] => none
  | (n, tbl) :: rest => if n = t then some tbl else findTable rest t

/-- Replace a table by name (first occurrence). -/
def setTable (db : Db) (t : String) (tbl : Table) : Db :=
  match db with
  | [] => []
  | (n, old) :: rest => if n = t then (n, tbl) :: rest else (n, old) :: setTable rest t tbl

/-- Lookup in an association list of pairs keyed by strings. -/
def lookupPair {α : Type} (ps : List (String × α)) (c : String) : Option α :=
  match ps with
  | [] => none
  | (n, v) :: rest => if n = c then some v else lookupPair rest c

/-- Index of a column name in a declaration list. -/
def idxOfCol (cols : List String) (c : String) : Option Nat :=
  match cols with
  | [] => none
  | n :: rest => if n = c then some 0 else (idxOfCol rest c).map (· + 1)

/-- Value of column `c` in a row of table `tbl` (NULL when absent). -/
def rowGet (tbl : Table) (row : List Value) (c : String) : Value :=
  match idxOfCol tbl.cols c with
  | some i => row.getD i Value.vNull
  | none => Value.vNull

/-- A row satisfies an AND-combined equality filter (bound-parameter
comparison, value for value). -/
def condsHold (tbl : Table) (conds : List (String × Value)) (row : List Value) : Bool :=
  conds.all (fun p => rowGet tbl row p.1 == p.2)

/-- A row satisfies an interpolated filter `col='text'`: sqlite compares the
column against the text literal, which under column affinity agrees with
comparing the rendered texts. -/
def condsHoldText (tbl : Table) (conds : List (String × Value)) (row : List Value) : Bool :=
  conds.all (fun p => pyStr (rowGet tbl row p.1) == pyStr p.2)

/-- All named columns are declared on the table. -/
def colsKnown (tbl : Table) (cols : List String) : Bool :=
  cols.all (fun c => tbl.cols.contains c)

/-- Result projection of a `SELECT ... WHERE` statement: `SELECT *`
(`get`, `filter`) or `SELECT 1` (`exists`). -/
inductive Proj where
  | star
  | one
deriving DecidableEq, Repr

/-- The statements the ORM issues, in structured form (the SQL text the ORM
builds for each of them is recorded separately in the trace). -/
inductive Stmt where
  | pragmaInfo (t : String)
  | selectAll (t : String)
  | selectWhere (t : String) (cols : List String) (limit1 : Bool) (proj : Proj)
  | selectCount (t : String) (cols : List String)
  | insertRow (t : String) (cols : List String)
  | updateRows (t : String) (setCols : List String) (whereCols : List String)
  | deleteRaw (t : String) (whereClause : String) (pairs : List (String × Value))
deriving DecidableEq, Repr

/-- What `cursor.execute` leaves behind: fetched rows, or the affected-row
count and (for inserts) the last inserted rowid. -/
inductive ExecOut where
  | rowsOut (rows : List (List Value))
  | dmlOut (affected : Nat) (lastId : Option Nat)
deriving DecidableEq, Repr

/-- Which fault switch governs a statement. -/
def stmtFault (f : Faults) : Stmt → Bool
  | Stmt.pragmaInfo _ => f.pragmaFault
  | Stmt.selectAll _ => f.selectFault
  | Stmt.selectWhere _ _ _ _ => f.selectFault
  | Stmt.selectCount _ _ => f.selectFault
  | Stmt.insertRow _ _ => f.dmlFault
  | Stmt.updateRows _ _ _ => f.dmlFault
  | Stmt.deleteRaw _ _ _ => f.dmlFault

/-- `PRAGMA table_info` rows: `(cid, name, type, ...)`; empty for a missing
table (sqlite returns no rows rather than erroring). -/
def pragmaRows (tbl : Table) : List (List Value) :=
  (tbl.cols.zip tbl.types).enum.map
    (fun p => [Value.vInt p.1, Value.vStr p.2.1, Value.vStr p.2.2])

/-- Write the update-set columns into a row. -/
def applySet (tbl : Table) (setPairs : List (String × Value)) (row : List Value) : List Value :=
  (row.enum).map (fun p =>
    match tbl.cols.get? p.1 with
    | some c =>
      match lookupPair setPairs c with
      | some v => v
      | none => p.2
    | none => p.2)

/-- Relational semantics of one statement against the current data
(transaction bookkeeping lives in `Engine`, not here). -/
def execStmt (db : Db) (stmt : Stmt) (params : List Value) : Except String (ExecOut × Db) :=
  match stmt with
  | Stmt.pragmaInfo t =>
    match findTable db t with
    | none => Except.ok (ExecOut.rowsOut [], db)
    | some tbl => Except.ok (ExecOut.rowsOut (pragmaRows tbl), db)
  | Stmt.selectAll t =>
    match findTable db t with
    | none => Except.error "no such table"
    | some tbl => Except.ok (ExecOut.rowsOut tbl.rows, db)
  | Stmt.selectWhere t cols limit1 proj =>
    match findTable db t with
    | none => Except.error "no such table"
    | some tbl =>
      if colsKnown tbl cols then
        let matching := tbl.rows.filter (condsHold tbl (cols.zip params))
        let projected :=
          match proj with
          | Proj.star => matching
          | Proj.one => matching.map (fun _ => [Value.vInt 1])
        Except.ok (ExecOut.rowsOut (if limit1 then projected.take 1 else projected), db)
      else Except.error "no such column"
  | Stmt.selectCount t cols =>
    match findTable db t with
    | none => Except.error "no such table"
    | some tbl =>
      if colsKnown tbl cols then
        Except.ok (ExecOut.rowsOut
          [[Value.vInt (tbl.rows.filter (condsHold tbl (cols.zip params))).length]], db)
      else Except.error "no such column"
  | Stmt.insertRow t cols =>
    match findTable db t with
    | none => Except.error "no such table"
    | some tbl =>
      if colsKnown tbl cols then
        let pairs := cols.zip params
        let newRow := tbl.cols.map (fun c => (lookupPair pairs c).getD Value.vNull)
        let rows2 := tbl.rows ++ [newRow]
        Except.ok (ExecOut.dmlOut 1 (some rows2.length),
          setTable db t { tbl with rows := rows2 })
      else Except.error "table has no such column"
  | Stmt.updateRows t setCols whereCols =>
    match findTable db t with
    | none => Except.error "no such table"
    | some tbl =>
      if colsKnown tbl (setCols ++ whereCols) then
        let setPairs := setCols.zip (params.take setCols.length)
        let wherePairs := whereCols.zip (params.drop setCols.length)
        let affected := (tbl.rows.filter (condsHold tbl wherePairs)).length
        let rows2 := tbl.rows.map
          (fun r => if condsHold tbl wherePairs r then applySet tbl setPairs r else r)
        Except.ok (ExecOut.dmlOut affected none, setTable db t { tbl with rows := rows2 })
      else Except.error "no such column"
  | Stmt.deleteRaw t clause pairs =>
    if clause = "" then
      -- `DELETE FROM t WHERE ;` — the empty interpolated clause is a syntax error
      Except.error "incomplete WHERE: syntax error"
    else
      match findTable db t with
      | none => Except.error "no such table"
      | some tbl =>
        if colsKnown tbl (pairs.map (fun p => p.1)) then
          let keep := tbl.rows.filter (fun r => ¬ condsHoldText tbl pairs r)
          Except.ok (ExecOut.dmlOut (tbl.rows.length - keep.length) none,
            setTable db t { tbl with rows := keep })
        else Except.error "no such column"

/-- `cursor.execute(sql, params)`: records the call, then fails when the
connection is closed or the environment faults this call, else runs the
statement. -/
def engExec (e : Engine) (sql : String) (params : List Value) (stmt : Stmt) :
    Except String ExecOut × Engine :=
  let e1 := { e with trace := e.trace ++ [EngineCall.execCall sql params] }
  if e.closed then (Except.error "Cannot operate on a closed database.", e1)
  else if stmtFault e.faults stmt then (Except.error "engine fault", e1)
  else
    match execStmt e.db stmt params with
    | Except.error m => (Except.error m, e1)
    | Except.ok (out, db2) => (Except.ok out, { e1 with db := db2 })

/-- `connection.execute('BEGIN TRANSACTION;')`: fails when closed, when a
transaction is already open (sqlite rejects a nested BEGIN), or on an
environment fault; otherwise snapshots the data. -/
def engBeginTx (e : Engine) : Except String Unit × Engine :=
  let e1 := { e with trace := e.trace ++ [EngineCall.execCall "BEGIN TRANSACTION;" []] }
  if e.closed then (Except.error "Cannot operate on a closed database.", e1)
  else if e.snapshot.isSome then
    (Except.error "cannot start a transaction within a transaction", e1)
  else if e.faults.beginFault then (Except.error "begin fault", e1)
  else (Except.ok (), { e1 with snapshot := some e.db })

/-- `connection.commit()`: on success the snapshot is dropped (a commit
outside a transaction is a no-op); a faulted commit leaves the transaction
open. -/
def engCommit (e : Engine) : Except String Unit × Engine :=
  let e1 := { e with trace := e.trace ++ [EngineCall.commitCall] }
  if e.closed then (Except.error "Cannot operate on a closed database.", e1)
  else if e.faults.commitFault then (Except.error "commit fault", e1)
  else (Except.ok (), { e1 with snapshot := none })

/-- `connection.rollback()`: restores the snapshot when one exists (a
rollback outside a transaction is a no-op). -/
def engRollback (e : Engine) : Except String Unit × Engine :=
  let e1 := { e with trace := e.trace ++ [EngineCall.rollbackCall] }
  if e.closed then (Except.error "Cannot operate on a closed database.", e1)
  else if e.faults.rollbackFault then (Except.error "rollback fault", e1)
  else
    match e.snapshot with
    | some d => (Except.ok (), { e1 with db := d, snapshot := none })
    | none => (Except.ok (), e1)

/-! ## The ORM layer (`class SQLiteORM`) -/

/-- The Python exceptions the ORM raises or handles: `ValueError`,
`TypeError`, `sqlite3.Error` (internal, normally caught), plain
`Exception(...)` re-raises, and the `AttributeError` a `None` connection
produces. -/
inductive PyError where
  | valueError (msg : String)
  | typeError (msg : String)
  | sqliteError (msg : String)
  | genericExc (msg : String)
  | attributeError (msg : String)
deriving DecidableEq, Repr

/-- The ORM instance state: `self.connection is not None`, the engine it
talks to, `self.in_transaction`, and the cursor's `lastrowid`/`rowcount`. -/
structure ORM where
  hasConn : Bool
  engine : Engine
  in_transaction : Bool
  lastrowid : Nat
  rowcount : Nat
deriving DecidableEq, Repr

/-- A freshly constructed `SQLiteORM` over data `db`, in an environment
whose engine faults are `f`. -/
def initORM (db : Db) (f : Faults) : ORM :=
  { hasConn := true
    engine := { db := db, snapshot := none, closed := false, faults := f, trace := [] }
    in_transaction := false
    lastrowid := 0
    rowcount := 0 }

/-! ### SQL text building, exactly mirroring the f-strings of the source -/

/-- `', '.join(...)`. -/
def joinComma (xs : List String) : String := String.intercalate ", " xs

/-- `' AND '.join([f'{col}=?' for col in keys])` — bound-parameter filter. -/
def condClause (cols : List String) : String :=
  String.intercalate " AND " (cols.map (fun c => c ++ "=?"))

/-- `f'PRAGMA table_info({table_name});'` -/
def pragmaQuery (t : String) : String := "PRAGMA table_info(" ++ t ++ ");"

/-- `f'INSERT INTO {table_name} ({columns}) VALUES ({placeholders});'` -/
def insertQuery (t : String) (cols : List String) : String :=
  "INSERT INTO " ++ t ++ " (" ++ joinComma cols ++ ") VALUES ("
    ++ joinComma (cols.map (fun _ => "?")) ++ ");"

/-- `f'SELECT * FROM {table_name} WHERE {conditions} LIMIT 1;'` -/
def getQuery (t : String) (cols : List String) : String :=
  "SELECT * FROM " ++ t ++ " WHERE " ++ condClause cols ++ " LIMIT 1;"

/-- `f'SELECT * FROM {table_name};'` -/
def selectAllQuery (t : String) : String := "SELECT * FROM " ++ t ++ ";"

/-- `f'SELECT * FROM {table_name} WHERE {conditions};'` -/
def filterQuery (t : String) (cols : List String) : String :=
  "SELECT * FROM " ++ t ++ " WHERE " ++ condClause cols ++ ";"

/-- `f'SELECT 1 FROM {table_name} WHERE {conditions} LIMIT 1;'` -/
def existsQuery (t : String) (cols : List String) : String :=
  "SELECT 1 FROM " ++ t ++ " WHERE " ++ condClause cols ++ " LIMIT 1;"

/-- `f'SELECT COUNT(*) FROM {table_name} WHERE {conditions};'` -/
def countQuery (t : String) (cols : List String) : String :=
  "SELECT COUNT(*) FROM " ++ t ++ " WHERE " ++ condClause cols ++ ";"

/-- `f'SELECT COUNT(*) FROM {table_name};'` -/
def countAllQuery (t : String) : String := "SELECT COUNT(*) FROM " ++ t ++ ";"

/-- `f'UPDATE {table_name} SET {set_clause} WHERE {filter_clause};'` -/
def updateQuery (t : String) (setCols whereCols : List String) : String :=
  "UPDATE " ++ t ++ " SET " ++ joinComma (setCols.map (fun c => c ++ "=?"))
    ++ " WHERE " ++ condClause whereCols ++ ";"

/-- `' AND '.join([f"{col}='{val}'" for col, val in kwargs.items()])` — the
delete path interpolates the VALUES into the SQL text (no placeholders). -/
def deleteConds (pairs : List (String × Value)) : String :=
  String.intercalate " AND "
    (pairs.map (fun p => p.1 ++ "=\x27" ++ pyStr p.2 ++ "\x27"))

/-- `f"DELETE FROM {table_name} WHERE {conditions};"` -/
def deleteQuery (t : String) (pairs : List (String × Value)) : String :=
  "DELETE FROM " ++ t ++ " WHERE " ++ deleteConds pairs ++ ";"

/-! ### The methods -/

/-- Rows of an `ExecOut` (what `fetchall` sees). -/
def rowsOf : ExecOut → List (List Value)
  | ExecOut.rowsOut rs => rs
  | ExecOut.dmlOut _ _ => []

/-- Store a DML result into the cursor state (`rowcount`, `lastrowid`). -/
def applyDml (o : ORM) (out : ExecOut) : ORM :=
  match out with
  | ExecOut.dmlOut aff lastId =>
    match lastId with
    | some n => { o with rowcount := aff, lastrowid := n }
    | none => { o with rowcount := aff }
  | ExecOut.rowsOut _ => o

/-- `begin_transaction`: issues `BEGIN TRANSACTION;` on the connection; on
`sqlite3.Error` re-raises `Exception("Transaction start failed: ...")`;
on success sets `in_transaction = True`. -/
def begin_transaction (o : ORM) : Except PyError Unit × ORM :=
  if o.hasConn then
    match engBeginTx o.engine with
    | (Except.error m, e) =>
      (Except.error (PyError.genericExc ("Transaction start failed: " ++ m)),
        { o with engine := e })
    | (Except.ok _, e) => (Except.ok (), { o with engine := e, in_transaction := true })
  else
    (Except.error (PyError.attributeError "NoneType object has no attribute execute"), o)

/-- `commit_transaction`: `connection.commit()`; on success clears the
flag; on `sqlite3.Error` it calls `connection.rollback()` (a failure of
which propagates as a raw `sqlite3.Error` with the flag untouched), clears
the flag, and re-raises `Exception("Transaction commit failed: ...")`. -/
def commit_transaction (o : ORM) : Except PyError Unit × ORM :=
  if o.hasConn then
    match engCommit o.engine with
    | (Except.ok _, e) => (Except.ok (), { o with engine := e, in_transaction := false })
    | (Except.error m, e) =>
      match engRollback e with
      | (Except.error m2, e2) => (Except.error (PyError.sqliteError m2), { o with engine := e2 })
      | (Except.ok _, e2) =>
        (Except.error (PyError.genericExc ("Transaction commit failed: " ++ m)),
          { o with engine := e2, in_transaction := false })
  else
    (Except.error (PyError.attributeError "NoneType object has no attribute commit"), o)

/-- `rollback_transaction`: a no-op (printed only) when no transaction is
flagged; otherwise `connection.rollback()` then clear the flag, re-raising
`Exception("Transaction rollback failed: ...")` on `sqlite3.Error` with
the flag untouched. -/
def rollback_transaction (o : ORM) : Except PyError Unit × ORM :=
  if o.in_transaction then
    if o.hasConn then
      match engRollback o.engine with
      | (Except.error m, e) =>
        (Except.error (PyError.genericExc ("Transaction rollback failed: " ++ m)),
          { o with engine := e })
      | (Except.ok _, e) => (Except.ok (), { o with engine := e, in_transaction := false })
    else
      (Except.error (PyError.attributeError "NoneType object has no attribute rollback"), o)
  else (Except.ok (), o)

/-- `close`: closes and nulls the connection (idempotent). -/
def close (o : ORM) : Except PyError Unit × ORM :=
  if o.hasConn then
    (Except.ok (), { o with hasConn := false, engine := { o.engine with closed := true } })
  else (Except.ok (), o)

/-- `{col[1]: col[2] for col in schema}` — name-to-type mapping out of the
`PRAGMA table_info` rows. -/
def schemaFromRows (rows : List (List Value)) : List (String × String) :=
  rows.filterMap (fun r =>
    match r.get? 1, r.get? 2 with
    | some (Value.vStr n), some (Value.vStr ty) => some (n, ty)
    | _, _ => none)

/-- `get_table_schema`: `PRAGMA table_info`, turned into a name-to-type
mapping; any `sqlite3.Error` is caught and an empty mapping returned. -/
def get_table_schema (o : ORM) (t : String) : List (String × String) × ORM :=
  match engExec o.engine (pragmaQuery t) [] (Stmt.pragmaInfo t) with
  | (Except.error _, e) => ([], { o with engine := e })
  | (Except.ok out, e) => (schemaFromRows (rowsOf out), { o with engine := e })

/-- ASCII uppercase of one character (`str.upper` on the ASCII type names
sqlite declares). -/
def upChar (c : Char) : Char :=
  if 'a' ≤ c ∧ c ≤ 'z' then Char.ofNat (c.toNat - 32) else c

/-- ASCII uppercase of a string (`schema[col].upper()`). -/
def upStr (s : String) : String := String.mk (s.data.map upChar)

/-- The shallow runtime-type check of `create` (`elif` chain on the
upper-cased declared type; unknown declared types are unconstrained). -/
def typeOk (dtype : String) (v : Value) : Bool :=
  let e := upStr dtype
  if e = "INTEGER" then (match v with | Value.vInt _ => true | _ => false)
  else if e = "TEXT" then (match v with | Value.vStr _ => true | _ => false)
  else if e = "REAL" then
    (match v with | Value.vInt _ => true | Value.vReal _ => true | _ => false)
  else if e = "BLOB" then (match v with | Value.vBlob _ => true | _ => false)
  else true

/-- The per-column validation loop of `create`: unknown column is a
`ValueError`, a type mismatch a `TypeError`; first failure wins. -/
def validateCreate (t : String) (schema : List (String × String)) :
    List (String × Value) → Option PyError
  | [] => none
  | (c, v) :: rest =>
    match lookupPair schema c with
    | none =>
      some (PyError.valueError ("Column " ++ c ++ " does not exist in table " ++ t))
    | some dtype =>
      if typeOk dtype v then validateCreate t schema rest
      else some (PyError.typeError
        ("Value for column " ++ c ++ " should be of type " ++ upStr dtype))

/-- The `except sqlite3.Error` block of `create`: roll back through
`rollback_transaction` only when a transaction is flagged, then re-raise
`Exception("Insertion failed: ...")`. -/
def createExceptBlock (o : ORM) (cause : String) : Except PyError Nat × ORM :=
  if o.in_transaction then
    match rollback_transaction o with
    | (Except.error err, o1) => (Except.error err, o1)
    | (Except.ok _, o1) =>
      (Except.error (PyError.genericExc ("Insertion failed: " ++ cause)), o1)
  else (Except.error (PyError.genericExc ("Insertion failed: " ++ cause)), o)

/-- Statement execution and conditional commit of `create`'s `try` block
(`in_self` is the local `in_self_trasaction`).  A `sqlite3.Error` escaping
`commit_transaction` (its rollback-during-commit failure) is caught by the
same `except` block; its plain `Exception` re-raise is not. -/
def createExecPhase (o : ORM) (t : String) (kwargs : List (String × Value))
    (in_self : Bool) : Except PyError Nat × ORM :=
  let cols := kwargs.map (fun p => p.1)
  match engExec o.engine (insertQuery t cols) (kwargs.map (fun p => p.2))
      (Stmt.insertRow t cols) with
  | (Except.error m, e) => createExceptBlock { o with engine := e } m
  | (Except.ok out, e) =>
    let o1 := applyDml { o with engine := e } out
    if ¬ o1.in_transaction ∨ in_self then
      match commit_transaction o1 with
      | (Except.error (PyError.sqliteError m), o2) => createExceptBlock o2 m
      | (Except.error err, o2) => (Except.error err, o2)
      | (Except.ok _, o2) => (Except.ok o2.lastrowid, o2)
    else (Except.ok o1.lastrowid, o1)

/-- The `try` block of `create`: open a transaction iff none is flagged
(`begin_transaction`'s plain-`Exception` failure propagates uncaught),
then execute and conditionally commit. -/
def createTryBlock (o : ORM) (t : String) (kwargs : List (String × Value)) :
    Except PyError Nat × ORM :=
  if o.in_transaction then createExecPhase o t kwargs false
  else
    match begin_transaction o with
    | (Except.error err, o1) => (Except.error err, o1)
    | (Except.ok _, o1) => createExecPhase o1 t kwargs true

/-- `create` (insert): validation (empty data, missing table, unknown
column, type mismatch) strictly before the transactional `try` block. -/
def create (o : ORM) (t : String) (kwargs : List (String × Value)) :
    Except PyError Nat × ORM :=
  if kwargs = [] then
    (Except.error (PyError.valueError "No data provided for insertion"), o)
  else
    match get_table_schema o t with
    | (schema, o1) =>
      if schema = [] then
        (Except.error (PyError.valueError
          ("Table " ++ t ++ " does not exist or could not be retrieved")), o1)
      else
        match validateCreate t schema kwargs with
        | some err => (Except.error err, o1)
        | none => createTryBlock o1 t kwargs

/-- `get`: single row by AND-equality filter with bound parameters; any
`sqlite3.Error` is caught and `None` returned. -/
def get (o : ORM) (t : String) (kwargs : List (String × Value)) :
    Except PyError (Option (List Value)) × ORM :=
  if kwargs = [] then
    (Except.error (PyError.valueError "No conditions provided for the query"), o)
  else
    let cols := kwargs.map (fun p => p.1)
    match engExec o.engine (getQuery t cols) (kwargs.map (fun p => p.2))
        (Stmt.selectWhere t cols true Proj.star) with
    | (Except.error _, e) => (Except.ok none, { o with engine := e })
    | (Except.ok out, e) => (Except.ok (rowsOf out).head?, { o with engine := e })

/-- `filter`: all rows matching the filter (all rows when it is empty);
any `sqlite3.Error` is caught and `[]` returned. -/
def filter (o : ORM) (t : String) (kwargs : List (String × Value)) :
    Except PyError (List (List Value)) × ORM :=
  if kwargs = [] then
    match engExec o.engine (selectAllQuery t) [] (Stmt.selectAll t) with
    | (Except.error _, e) => (Except.ok [], { o with engine := e })
    | (Except.ok out, e) => (Except.ok (rowsOf out), { o with engine := e })
  else
    let cols := kwargs.map (fun p => p.1)
    match engExec o.engine (filterQuery t cols) (kwargs.map (fun p => p.2))
        (Stmt.selectWhere t cols false Proj.star) with
    | (Except.error _, e) => (Except.ok [], { o with engine := e })
    | (Except.ok out, e) => (Except.ok (rowsOf out), { o with engine := e })

/-- `all`: every row of the table; any `sqlite3.Error` caught, `[]`. -/
def all (o : ORM) (t : String) : Except PyError (List (List Value)) × ORM :=
  match engExec o.engine (selectAllQuery t) [] (Stmt.selectAll t) with
  | (Except.error _, e) => (Except.ok [], { o with engine := e })
  | (Except.ok out, e) => (Except.ok (rowsOf out), { o with engine := e })

/-- `exists`: `SELECT 1 ... LIMIT 1` with bound parameters, `fetchone() is
not None`; any `sqlite3.Error` caught, `False`. -/
def existsRow (o : ORM) (t : String) (kwargs : List (String × Value)) :
    Except PyError Bool × ORM :=
  if kwargs = [] then
    (Except.error (PyError.valueError "Conditions must be provided to check existence"), o)
  else
    let cols := kwargs.map (fun p => p.1)
    match engExec o.engine (existsQuery t cols) (kwargs.map (fun p => p.2))
        (Stmt.selectWhere t cols true Proj.one) with
    | (Except.error _, e) => (Except.ok false, { o with engine := e })
    | (Except.ok out, e) => (Except.ok (rowsOf out).head?.isSome, { o with engine := e })

/-- First cell of the first fetched row as an integer (`fetchone()[0]`). -/
def countOf (out : ExecOut) : Int :=
  match (rowsOf out).head? with
  | some (Value.vInt n :: _) => n
  | _ => 0

/-- `count`: `SELECT COUNT(*)` with or without a bound-parameter filter;
any `sqlite3.Error` caught, `0`. -/
def count (o : ORM) (t : String) (kwargs : List (String × Value)) :
    Except PyError Int × ORM :=
  if kwargs = [] then
    match engExec o.engine (countAllQuery t) [] (Stmt.selectCount t []) with
    | (Except.error _, e) => (Except.ok 0, { o with engine := e })
    | (Except.ok out, e) => (Except.ok (countOf out), { o with engine := e })
  else
    let cols := kwargs.map (fun p => p.1)
    match engExec o.engine (countQuery t cols) (kwargs.map (fun p => p.2))
        (Stmt.selectCount t cols) with
    | (Except.error _, e) => (Except.ok 0, { o with engine := e })
    | (Except.ok out, e) => (Except.ok (countOf out), { o with engine := e })

/-- The `except sqlite3.Error` block shared in shape by `update` and
`delete`: a bare `self.connection.rollback()` — the `in_transaction` flag
is NOT reset — then re-raise `Exception(label + cause)`.  A failure of the
bare rollback propagates as a raw `sqlite3.Error`. -/
def rawRollbackExceptBlock (o : ORM) (cause : String) (label : String) :
    Except PyError Nat × ORM :=
  if o.hasConn then
    match engRollback o.engine with
    | (Except.error m2, e) => (Except.error (PyError.sqliteError m2), { o with engine := e })
    | (Except.ok _, e) =>
      (Except.error (PyError.genericExc (label ++ cause)), { o with engine := e })
  else
    (Except.error (PyError.attributeError "NoneType object has no attribute rollback"), o)

/-- Statement execution and conditional commit of `update`'s `try` block. -/
def updateExecPhase (o : ORM) (t : String) (filters kwargs : List (String × Value))
    (in_self : Bool) : Except PyError Nat × ORM :=
  let setCols := kwargs.map (fun p => p.1)
  let whereCols := filters.map (fun p => p.1)
  let vals := kwargs.map (fun p => p.2) ++ filters.map (fun p => p.2)
  match engExec o.engine (updateQuery t setCols whereCols) vals
      (Stmt.updateRows t setCols whereCols) with
  | (Except.error m, e) => rawRollbackExceptBlock { o with engine := e } m "Update failed: "
  | (Except.ok out, e) =>
    let o1 := applyDml { o with engine := e } out
    if ¬ o1.in_transaction ∨ in_self then
      match commit_transaction o1 with
      | (Except.error (PyError.sqliteError m), o2) =>
        rawRollbackExceptBlock o2 m "Update failed: "
      | (Except.error err, o2) => (Except.error err, o2)
      | (Except.ok _, o2) => (Except.ok o2.rowcount, o2)
    else (Except.ok o1.rowcount, o1)

/-- The `try` block of `update`. -/
def updateTryBlock (o : ORM) (t : String) (filters kwargs : List (String × Value)) :
    Except PyError Nat × ORM :=
  if o.in_transaction then updateExecPhase o t filters kwargs false
  else
    match begin_transaction o with
    | (Except.error err, o1) => (Except.error err, o1)
    | (Except.ok _, o1) => updateExecPhase o1 t filters kwargs true

/-- `update`: requires non-empty filters AND non-empty update values
before the transactional `try` block. -/
def update (o : ORM) (t : String) (filters kwargs : List (String × Value)) :
    Except PyError Nat × ORM :=
  if filters = [] ∨ kwargs = [] then
    (Except.error (PyError.valueError "Both filters and update data must be provided"), o)
  else updateTryBlock o t filters kwargs

/-- Statement execution and conditional commit of `delete`'s `try` block;
the WHERE clause is built by string interpolation and the statement is
executed with NO bound parameters. -/
def deleteExecPhase (o : ORM) (t : String) (kwargs : List (String × Value))
    (in_self : Bool) : Except PyError Nat × ORM :=
  match engExec o.engine (deleteQuery t kwargs) []
      (Stmt.deleteRaw t (deleteConds kwargs) kwargs) with
  | (Except.error m, e) => rawRollbackExceptBlock { o with engine := e } m "Deletion failed: "
  | (Except.ok out, e) =>
    let o1 := applyDml { o with engine := e } out
    if ¬ o1.in_transaction ∨ in_self then
      match commit_transaction o1 with
      | (Except.error (PyError.sqliteError m), o2) =>
        rawRollbackExceptBlock o2 m "Deletion failed: "
      | (Except.error err, o2) => (Except.error err, o2)
      | (Except.ok _, o2) => (Except.ok o2.rowcount, o2)
    else (Except.ok o1.rowcount, o1)

/-- The `try` block of `delete`. -/
def deleteTryBlock (o : ORM) (t : String) (kwargs : List (String × Value)) :
    Except PyError Nat × ORM :=
  if o.in_transaction then deleteExecPhase o t kwargs false
  else
    match begin_transaction o with
    | (Except.error err, o1) => (Except.error err, o1)
    | (Except.ok _, o1) => deleteExecPhase o1 t kwargs true

/-- `delete`: NO validation at all (zero filter fields are accepted), then
the transactional `try` block. -/
def delete (o : ORM) (t : String) (kwargs : List (String × Value)) :
    Except PyError Nat × ORM :=
  deleteTryBlock o t kwargs

/-- Decidable equality for `Except`, so that concrete runs can be settled
by `decide`. -/
instance {ε α : Type} [DecidableEq ε] [DecidableEq α] : DecidableEq (Except ε α) := fun x y =>
  match x, y with
  | Except.ok u, Except.ok v =>
    if h : u = v then isTrue (congrArg Except.ok h)
    else isFalse (fun hc => h (Except.ok.inj hc))
  | Except.error u, Except.error v =>
    if h : u = v then isTrue (congrArg Except.error h)
    else isFalse (fun hc => h (Except.error.inj hc))
  | Except.ok _, Except.error _ => isFalse (fun hc => Except.noConfusion hc)
  | Except.error _, Except.ok _ => isFalse (fun hc => Except.noConfusion hc)

/-! ### Concrete fixtures (the table of the repository's test suite) -/

/-- The `test_table` of `test_SQLiteORM.py`, with the two rows its tests
insert. -/
def usersTable : Table :=
  { cols := ["id", "name", "age"]
    types := ["INTEGER", "TEXT", "INTEGER"]
    rows := [[Value.vInt 1, Value.vStr "Alice", Value.vInt 30],
             [Value.vInt 2, Value.vStr "Bob", Value.vInt 25]] }

/-- A database holding just `usersTable` under the name `users`. -/
def usersDb : Db := [("users", usersTable)]

/-- A fault-free environment. -/
def noFaults : Faults := {}

/-- An environment whose DML executions fail. -/
def onlyDmlFault : Faults := { dmlFault := true }

/-- An environment whose BEGIN directives fail. -/
def onlyBeginFault : Faults := { beginFault := true }

/-- An environment whose commits fail (rollbacks still work). -/
def onlyCommitFault : Faults := { commitFault := true }

/-- An environment whose commits AND rollbacks fail. -/
def commitAndRollbackFault : Faults := { commitFault := true, rollbackFault := true }

example :
    (create (initORM usersDb noFaults) "users"
      [("name", Value.vStr "Carol"), ("age", Value.vInt 40)]).1 = Except.ok 3 := by decide

example :
    ((create (initORM usersDb noFaults) "users"
      [("name", Value.vStr "Carol"), ("age", Value.vInt 40)]).2).in_transaction = false := by decide

example :
    ((create (initORM usersDb noFaults) "users"
      [("name", Value.vStr "Carol"), ("age", Value.vInt 40)]).2).engine.trace =
    [EngineCall.execCall (pragmaQuery "users") [],
     EngineCall.execCall "BEGIN TRANSACTION;" [],
     EngineCall.execCall (insertQuery "users" ["name", "age"]) [Value.vStr "Carol", Value.vInt 40],
     EngineCall.commitCall] := by decide

example :
    (delete (initORM usersDb noFaults) "users" []).1 =
      Except.error (PyError.genericExc "Deletion failed: incomplete WHERE: syntax error") := by decide

example :
    ((delete (initORM usersDb noFaults) "users" []).2).engine.db = usersDb := by decide

example :
    ((delete (initORM usersDb noFaults) "users" []).2).in_transaction = true := by decide

example :
    ((update (initORM usersDb { dmlFault := true }) "users"
        [("name", Value.vStr "Alice")] [("age", Value.vInt 31)]).2).in_transaction = true := by decide

example :
    ((update (initORM usersDb { dmlFault := true }) "users"
        [("name", Value.vStr "Alice")] [("age", Value.vInt 31)]).2).engine.snapshot = none := by decide

example :
    (get ((close (initORM usersDb noFaults)).2) "users" [("name", Value.vStr "Alice")]).1 =
      Except.ok none := by decide

example :
    (delete (initORM usersDb noFaults) "users" [("name", Value.vStr "Alice")]).1 =
      Except.ok 1 := by decide

example :
    ((delete (initORM usersDb noFaults) "users" [("name", Value.vStr "Alice")]).2).engine.db =
      [("users", { usersTable with rows := [[Value.vInt 2, Value.vStr "Bob", Value.vInt 25]] })] := by decide

example :
    (existsRow (initORM usersDb noFaults) "users" [("age", Value.vInt 30)]).1 =
      Except.ok true := by decide

example :
    (get (initORM usersDb noFaults) "users" [("age", Value.vInt 30)]).1 =
      Except.ok (some [Value.vInt 1, Value.vStr "Alice", Value.vInt 30]) := by decide

/-! ## Claim theorems -/

/-- C1: for each mutating operation (`create`, `update`, `delete`): when no
transaction is open on entry the operation issues `BEGIN TRANSACTION;`
before the statement and a commit after a successful execution, leaving
`in_transaction` false; when the caller has already opened a transaction,
the operation issues neither begin nor commit and leaves `in_transaction`
true (and the engine transaction open), so the batch commits only when the
caller commits. -/
theorem c1_mutating_ops_transaction_wrapper
    (o : ORM) (t : String) (kw fs : List (String × Value)) (d : Db) (tbl : Table) :
    (o.in_transaction = false → o.hasConn = true → o.engine.closed = false →
     o.engine.snapshot = none → o.engine.faults = noFaults →
     kw ≠ [] → findTable o.engine.db t = some tbl →
     colsKnown tbl (kw.map (fun p => p.1)) = true →
     schemaFromRows (pragmaRows tbl) ≠ [] →
     validateCreate t (schemaFromRows (pragmaRows tbl)) kw = none →
     ((∃ n, (create o t kw).1 = Except.ok n) ∧
      (create o t kw).2.in_transaction = false ∧
      (create o t kw).2.engine.snapshot = none ∧
      (create o t kw).2.engine.trace = o.engine.trace ++
        [EngineCall.execCall (pragmaQuery t) [],
         EngineCall.execCall "BEGIN TRANSACTION;" [],
         EngineCall.execCall (insertQuery t (kw.map (fun p => p.1))) (kw.map (fun p => p.2)),
         EngineCall.commitCall])) ∧
    (o.in_transaction = true → o.hasConn = true → o.engine.closed = false →
     o.engine.snapshot = some d → o.engine.faults = noFaults →
     kw ≠ [] → findTable o.engine.db t = some tbl →
     colsKnown tbl (kw.map (fun p => p.1)) = true →
     schemaFromRows (pragmaRows tbl) ≠ [] →
     validateCreate t (schemaFromRows (pragmaRows tbl)) kw = none →
     ((∃ n, (create o t kw).1 = Except.ok n) ∧
      (create o t kw).2.in_transaction = true ∧
      (create o t kw).2.engine.snapshot = some d ∧
      (create o t kw).2.engine.trace = o.engine.trace ++
        [EngineCall.execCall (pragmaQuery t) [],
         EngineCall.execCall (insertQuery t (kw.map (fun p => p.1))) (kw.map (fun p => p.2))])) ∧
    (o.in_transaction = false → o.hasConn = true → o.engine.closed = false →
     o.engine.snapshot = none → o.engine.faults = noFaults →
     fs ≠ [] → kw ≠ [] → findTable o.engine.db t = some tbl →
     colsKnown tbl (kw.map (fun p => p.1) ++ fs.map (fun p => p.1)) = true →
     ((∃ n, (update o t fs kw).1 = Except.ok n) ∧
      (update o t fs kw).2.in_transaction = false ∧
      (update o t fs kw).2.engine.snapshot = none ∧
      (update o t fs kw).2.engine.trace = o.engine.trace ++
        [EngineCall.execCall "BEGIN TRANSACTION;" [],
         EngineCall.execCall (updateQuery t (kw.map (fun p => p.1)) (fs.map (fun p => p.1)))
           (kw.map (fun p => p.2) ++ fs.map (fun p => p.2)),
         EngineCall.commitCall])) ∧
    (o.in_transaction = true → o.hasConn = true → o.engine.closed = false →
     o.engine.snapshot = some d → o.engine.faults = noFaults →
     fs ≠ [] → kw ≠ [] → findTable o.engine.db t = some tbl →
     colsKnown tbl (kw.map (fun p => p.1) ++ fs.map (fun p => p.1)) = true →
     ((∃ n, (update o t fs kw).1 = Except.ok n) ∧
      (update o t fs kw).2.in_transaction = true ∧
      (update o t fs kw).2.engine.snapshot = some d ∧
      (update o t fs kw).2.engine.trace = o.engine.trace ++
        [EngineCall.execCall (updateQuery t (kw.map (fun p => p.1)) (fs.map (fun p => p.1)))
           (kw.map (fun p => p.2) ++ fs.map (fun p => p.2))])) ∧
    (o.in_transaction = false → o.hasConn = true → o.engine.closed = false →
     o.engine.snapshot = none → o.engine.faults = noFaults →
     deleteConds kw ≠ "" → findTable o.engine.db t = some tbl →
     colsKnown tbl (kw.map (fun p => p.1)) = true →
     ((∃ n, (delete o t kw).1 = Except.ok n) ∧
      (delete o t kw).2.in_transaction = false ∧
      (delete o t kw).2.engine.snapshot = none ∧
      (delete o t kw).2.engine.trace = o.engine.trace ++
        [EngineCall.execCall "BEGIN TRANSACTION;" [],
         EngineCall.execCall (deleteQuery t kw) [],
         EngineCall.commitCall])) ∧
    (o.in_transaction = true → o.hasConn = true → o.engine.closed = false →
     o.engine.snapshot = some d → o.engine.faults = noFaults →
     deleteConds kw ≠ "" → findTable o.engine.db t = some tbl →
     colsKnown tbl (kw.map (fun p => p.1)) = true →
     ((∃ n, (delete o t kw).1 = Except.ok n) ∧
      (delete o t kw).2.in_transaction = true ∧
      (delete o t kw).2.engine.snapshot = some d ∧
      (delete o t kw).2.engine.trace = o.engine.trace ++
        [EngineCall.execCall (deleteQuery t kw) []])) := by
  refine ⟨?_, ?_, ?_, ?_, ?_, ?_⟩ <;>
    intro h1 h2 h3 h4 h5 <;>
    intro hx6 <;>
    first
    | (intro hx7 hx8 hx9 hx10
       simp [create, get_table_schema, engExec, stmtFault, execStmt, rowsOf, createTryBlock,
             begin_transaction, engBeginTx, createExecPhase, applyDml, commit_transaction,
             engCommit, update, updateTryBlock, updateExecPhase, delete, deleteTryBlock,
             deleteExecPhase, h1, h2, h3, h4, h5, hx6, hx7, hx8, hx9, hx10, noFaults,
             List.append_assoc])
    | (intro hx7 hx8 hx9
       simp [create, get_table_schema, engExec, stmtFault, execStmt, rowsOf, createTryBlock,
             begin_transaction, engBeginTx, createExecPhase, applyDml, commit_transaction,
             engCommit, update, updateTryBlock, updateExecPhase, delete, deleteTryBlock,
             deleteExecPhase, h1, h2, h3, h4, h5, hx6, hx7, hx8, hx9, noFaults,
             List.append_assoc])
    | (intro hx7 hx8
       simp [create, get_table_schema, engExec, stmtFault, execStmt, rowsOf, createTryBlock,
             begin_transaction, engBeginTx, createExecPhase, applyDml, commit_transaction,
             engCommit, update, updateTryBlock, updateExecPhase, delete, deleteTryBlock,
             deleteExecPhase, h1, h2, h3, h4, h5, hx6, hx7, hx8, noFaults,
             List.append_assoc])

/-- Witness for C1 at a concrete fresh store: an auto-managed insert
begins, executes and commits, leaving the flag false. -/
theorem c1_mutating_ops_transaction_wrapper_witness :
    (∃ n, (create (initORM usersDb noFaults) "users" [("name", Value.vStr "Carol")]).1 =
      Except.ok n) ∧
    (create (initORM usersDb noFaults) "users" [("name", Value.vStr "Carol")]).2.in_transaction
      = false ∧
    (create (initORM usersDb noFaults) "users" [("name", Value.vStr "Carol")]).2.engine.snapshot
      = none ∧
    (create (initORM usersDb noFaults) "users" [("name", Value.vStr "Carol")]).2.engine.trace =
      (initORM usersDb noFaults).engine.trace ++
        [EngineCall.execCall (pragmaQuery "users") [],
         EngineCall.execCall "BEGIN TRANSACTION;" [],
         EngineCall.execCall (insertQuery "users" ["name"]) [Value.vStr "Carol"],
         EngineCall.commitCall] :=
  (c1_mutating_ops_transaction_wrapper (initORM usersDb noFaults) "users"
      [("name", Value.vStr "Carol")] [] usersDb usersTable).1
    rfl rfl rfl rfl rfl (by decide) (by decide) (by decide) (by decide) (by decide)

/-- C2: the claim asserts `in_transaction` is true iff a transaction is
open (opened by begin, not yet closed by commit or rollback), preserved on
every path.  The code violates it: when `update` auto-opens a transaction
and the statement execution then fails, its `except` block issues a bare
`connection.rollback()` — closing the engine transaction — but never
resets `in_transaction`.  The run below ends with the engine transaction
closed (rollback issued, snapshot gone) while `in_transaction` is still
true. -/
theorem c2_update_error_path_breaks_flag_invariant :
    (update (initORM usersDb onlyDmlFault) "users"
        [("name", Value.vStr "Alice")] [("age", Value.vInt 31)]).2.in_transaction = true ∧
    (update (initORM usersDb onlyDmlFault) "users"
        [("name", Value.vStr "Alice")] [("age", Value.vInt 31)]).2.engine.snapshot = none ∧
    (update (initORM usersDb onlyDmlFault) "users"
        [("name", Value.vStr "Alice")] [("age", Value.vInt 31)]).2.engine.trace =
      [EngineCall.execCall "BEGIN TRANSACTION;" [],
       EngineCall.execCall (updateQuery "users" ["age"] ["name"])
         [Value.vInt 31, Value.vStr "Alice"],
       EngineCall.rollbackCall] ∧
    (update (initORM usersDb onlyDmlFault) "users"
        [("name", Value.vStr "Alice")] [("age", Value.vInt 31)]).1 =
      Except.error (PyError.genericExc "Update failed: engine fault") ∧
    (delete (initORM usersDb onlyDmlFault) "users"
        [("name", Value.vStr "Alice")]).2.in_transaction = true ∧
    (delete (initORM usersDb onlyDmlFault) "users"
        [("name", Value.vStr "Alice")]).2.engine.snapshot = none := by
  refine ⟨by decide, by decide, by decide, by decide, by decide, by decide⟩

/-- C3: for each mutating operation, when statement execution fails while
a transaction is open the operation issues a rollback and raises an error
carrying the underlying cause; when the failure happens before any
transaction was opened (the BEGIN itself fails), no rollback is issued. -/
theorem c3_execution_failure_triggers_rollback
    (o : ORM) (t : String) (kw fs : List (String × Value)) (d : Db) (tbl : Table) :
    (o.in_transaction = false → o.hasConn = true → o.engine.closed = false →
     o.engine.snapshot = none → o.engine.faults = onlyDmlFault →
     kw ≠ [] → findTable o.engine.db t = some tbl →
     schemaFromRows (pragmaRows tbl) ≠ [] →
     validateCreate t (schemaFromRows (pragmaRows tbl)) kw = none →
     ((create o t kw).1 = Except.error (PyError.genericExc "Insertion failed: engine fault") ∧
      (create o t kw).2.in_transaction = false ∧
      (create o t kw).2.engine.snapshot = none ∧
      (create o t kw).2.engine.db = o.engine.db ∧
      (create o t kw).2.engine.trace = o.engine.trace ++
        [EngineCall.execCall (pragmaQuery t) [],
         EngineCall.execCall "BEGIN TRANSACTION;" [],
         EngineCall.execCall (insertQuery t (kw.map (fun p => p.1))) (kw.map (fun p => p.2)),
         EngineCall.rollbackCall])) ∧
    (o.in_transaction = true → o.hasConn = true → o.engine.closed = false →
     o.engine.snapshot = some d → o.engine.faults = onlyDmlFault →
     fs ≠ [] → kw ≠ [] →
     ((update o t fs kw).1 = Except.error (PyError.genericExc "Update failed: engine fault") ∧
      (update o t fs kw).2.engine.db = d ∧
      (update o t fs kw).2.engine.snapshot = none ∧
      (update o t fs kw).2.engine.trace = o.engine.trace ++
        [EngineCall.execCall (updateQuery t (kw.map (fun p => p.1)) (fs.map (fun p => p.1)))
           (kw.map (fun p => p.2) ++ fs.map (fun p => p.2)),
         EngineCall.rollbackCall])) ∧
    (o.in_transaction = true → o.hasConn = true → o.engine.closed = false →
     o.engine.snapshot = some d → o.engine.faults = onlyDmlFault →
     ((delete o t kw).1 = Except.error (PyError.genericExc "Deletion failed: engine fault") ∧
      (delete o t kw).2.engine.db = d ∧
      (delete o t kw).2.engine.snapshot = none ∧
      (delete o t kw).2.engine.trace = o.engine.trace ++
        [EngineCall.execCall (deleteQuery t kw) [],
         EngineCall.rollbackCall])) ∧
    (o.in_transaction = false → o.hasConn = true → o.engine.closed = false →
     o.engine.snapshot = none → o.engine.faults = onlyBeginFault →
     kw ≠ [] → findTable o.engine.db t = some tbl →
     schemaFromRows (pragmaRows tbl) ≠ [] →
     validateCreate t (schemaFromRows (pragmaRows tbl)) kw = none →
     ((create o t kw).1 =
        Except.error (PyError.genericExc "Transaction start failed: begin fault") ∧
      (create o t kw).2.in_transaction = false ∧
      (create o t kw).2.engine.db = o.engine.db ∧
      (create o t kw).2.engine.trace = o.engine.trace ++
        [EngineCall.execCall (pragmaQuery t) [],
         EngineCall.execCall "BEGIN TRANSACTION;" []])) ∧
    (o.in_transaction = false → o.hasConn = true → o.engine.closed = false →
     o.engine.snapshot = none → o.engine.faults = onlyBeginFault →
     fs ≠ [] → kw ≠ [] →
     ((update o t fs kw).1 =
        Except.error (PyError.genericExc "Transaction start failed: begin fault") ∧
      (update o t fs kw).2.in_transaction = false ∧
      (update o t fs kw).2.engine.db = o.engine.db ∧
      (update o t fs kw).2.engine.trace = o.engine.trace ++
        [EngineCall.execCall "BEGIN TRANSACTION;" []])) := by
  refine ⟨?_, ?_, ?_, ?_, ?_⟩ <;>
    intro h1 h2 h3 h4 h5 <;>
    first
    | (intro hx6 hx7 hx8 hx9
       simp [create, get_table_schema, engExec, stmtFault, execStmt, rowsOf, createTryBlock,
             begin_transaction, engBeginTx, createExceptBlock, rollback_transaction,
             engRollback, createExecPhase, applyDml, update, updateTryBlock, updateExecPhase,
             rawRollbackExceptBlock, delete, deleteTryBlock, deleteExecPhase,
             h1, h2, h3, h4, h5, hx6, hx7, hx8, hx9, onlyDmlFault, onlyBeginFault,
             List.append_assoc])
    | (intro hx6 hx7
       simp [create, get_table_schema, engExec, stmtFault, execStmt, rowsOf, createTryBlock,
             begin_transaction, engBeginTx, createExceptBlock, rollback_transaction,
             engRollback, createExecPhase, applyDml, update, updateTryBlock, updateExecPhase,
             rawRollbackExceptBlock, delete, deleteTryBlock, deleteExecPhase,
             h1, h2, h3, h4, h5, hx6, hx7, onlyDmlFault, onlyBeginFault,
             List.append_assoc])
    | (simp [create, get_table_schema, engExec, stmtFault, execStmt, rowsOf, createTryBlock,
             begin_transaction, engBeginTx, createExceptBlock, rollback_transaction,
             engRollback, createExecPhase, applyDml, update, updateTryBlock, updateExecPhase,
             rawRollbackExceptBlock, delete, deleteTryBlock, deleteExecPhase,
             h1, h2, h3, h4, h5, onlyDmlFault, onlyBeginFault, List.append_assoc])

/-- Witness for C3 at a concrete store whose DML executions fail: the
auto-opened insert rolls back and surfaces the cause. -/
theorem c3_execution_failure_triggers_rollback_witness :
    (create (initORM usersDb onlyDmlFault) "users" [("name", Value.vStr "Carol")]).1 =
      Except.error (PyError.genericExc "Insertion failed: engine fault") ∧
    (create (initORM usersDb onlyDmlFault) "users" [("name", Value.vStr "Carol")]).2.in_transaction
      = false ∧
    (create (initORM usersDb onlyDmlFault) "users" [("name", Value.vStr "Carol")]).2.engine.snapshot
      = none ∧
    (create (initORM usersDb onlyDmlFault) "users" [("name", Value.vStr "Carol")]).2.engine.db
      = (initORM usersDb onlyDmlFault).engine.db ∧
    (create (initORM usersDb onlyDmlFault) "users" [("name", Value.vStr "Carol")]).2.engine.trace =
      (initORM usersDb onlyDmlFault).engine.trace ++
        [EngineCall.execCall (pragmaQuery "users") [],
         EngineCall.execCall "BEGIN TRANSACTION;" [],
         EngineCall.execCall (insertQuery "users" ["name"]) [Value.vStr "Carol"],
         EngineCall.rollbackCall] :=
  (c3_execution_failure_triggers_rollback (initORM usersDb onlyDmlFault) "users"
      [("name", Value.vStr "Carol")] [] usersDb usersTable).1
    rfl rfl rfl rfl rfl (by decide) (by decide) (by decide) (by decide)

/-- C4: the claim asserts every query-building path (including `delete`)
passes filter values only as bound parameters, making the SQL text
identical across value assignments over the same columns.  The code
violates it on `delete`: the value is interpolated into the SQL text, so
two assignments over the same column produce different SQL and the
statement is executed with an empty parameter list — while the bound
read/update paths do produce value-independent SQL with the values carried
separately as parameters. -/
theorem c4_delete_builds_sql_by_interpolation :
    deleteQuery "users" [("name", Value.vStr "Alice")] =
      "DELETE FROM users WHERE name=\x27Alice\x27;" ∧
    deleteQuery "users" [("name", Value.vStr "Bob")] =
      "DELETE FROM users WHERE name=\x27Bob\x27;" ∧
    deleteQuery "users" [("name", Value.vStr "Alice")] ≠
      deleteQuery "users" [("name", Value.vStr "Bob")] ∧
    (delete (initORM usersDb noFaults) "users" [("name", Value.vStr "Alice")]).2.engine.trace =
      [EngineCall.execCall "BEGIN TRANSACTION;" [],
       EngineCall.execCall "DELETE FROM users WHERE name=\x27Alice\x27;" [],
       EngineCall.commitCall] ∧
    (get (initORM usersDb noFaults) "users" [("name", Value.vStr "Alice")]).2.engine.trace =
      [EngineCall.execCall "SELECT * FROM users WHERE name=? LIMIT 1;" [Value.vStr "Alice"]] ∧
    (get (initORM usersDb noFaults) "users" [("name", Value.vStr "Bob")]).2.engine.trace =
      [EngineCall.execCall "SELECT * FROM users WHERE name=? LIMIT 1;" [Value.vStr "Bob"]] ∧
    existsQuery "users" ["name"] = "SELECT 1 FROM users WHERE name=? LIMIT 1;" ∧
    countQuery "users" ["age"] = "SELECT COUNT(*) FROM users WHERE age=?;" ∧
    filterQuery "users" ["age"] = "SELECT * FROM users WHERE age=?;" ∧
    updateQuery "users" ["age"] ["name"] = "UPDATE users SET age=? WHERE name=?;" := by
  refine ⟨by decide, by decide, by decide, by decide, by decide, by decide, by decide,
    by decide, by decide, by decide⟩

/-- C5 (counterexample): the claim asserts `delete` with an empty filter
set executes an unconstrained delete affecting every row and returns the
affected count.  On a store with two rows, the empty-filter call instead
builds the malformed statement `DELETE FROM users WHERE ;`, the engine
rejects it, the operation raises, and both rows survive. -/
theorem c5_empty_delete_counterexample :
    deleteQuery "users" [] = "DELETE FROM users WHERE ;" ∧
    (delete (initORM usersDb noFaults) "users" []).1 =
      Except.error (PyError.genericExc "Deletion failed: incomplete WHERE: syntax error") ∧
    (delete (initORM usersDb noFaults) "users" []).2.engine.db = usersDb ∧
    usersTable.rows.length = 2 := by
  refine ⟨by decide, by decide, by decide, by decide⟩

/-- C5 (amended): `delete` accepts zero filter fields without any
validation error, but zero fields do not mean "no constraint": the built
statement has an empty WHERE clause, the engine rejects it as a syntax
error, the operation rolls back and raises a deletion error, and no row is
deleted. -/
theorem c5_empty_filter_delete_is_malformed (o : ORM) (t : String)
    (h1 : o.in_transaction = false) (h2 : o.hasConn = true) (h3 : o.engine.closed = false)
    (h4 : o.engine.snapshot = none) (h5 : o.engine.faults = noFaults) :
    deleteConds ([] : List (String × Value)) = "" ∧
    (delete o t []).1 =
      Except.error (PyError.genericExc "Deletion failed: incomplete WHERE: syntax error") ∧
    (delete o t []).2.engine.db = o.engine.db ∧
    (delete o t []).2.engine.trace = o.engine.trace ++
      [EngineCall.execCall "BEGIN TRANSACTION;" [],
       EngineCall.execCall (deleteQuery t []) [],
       EngineCall.rollbackCall] := by
  have h0 : (" AND ".intercalate ([] : List String)) = "" := by decide
  refine ⟨by decide, ?_, ?_, ?_⟩ <;>
    simp [delete, deleteTryBlock, begin_transaction, engBeginTx, deleteExecPhase, engExec,
          stmtFault, execStmt, deleteConds, rawRollbackExceptBlock, engRollback,
          h0, h1, h2, h3, h4, h5, noFaults, List.append_assoc]

/-- Witness for C5's amended statement at a concrete two-row store. -/
theorem c5_empty_filter_delete_is_malformed_witness :
    deleteConds ([] : List (String × Value)) = "" ∧
    (delete (initORM usersDb noFaults) "users" []).1 =
      Except.error (PyError.genericExc "Deletion failed: incomplete WHERE: syntax error") ∧
    (delete (initORM usersDb noFaults) "users" []).2.engine.db =
      (initORM usersDb noFaults).engine.db ∧
    (delete (initORM usersDb noFaults) "users" []).2.engine.trace =
      (initORM usersDb noFaults).engine.trace ++
        [EngineCall.execCall "BEGIN TRANSACTION;" [],
         EngineCall.execCall (deleteQuery "users" []) [],
         EngineCall.rollbackCall] :=
  c5_empty_filter_delete_is_malformed (initORM usersDb noFaults) "users" rfl rfl rfl rfl rfl

/-- A `PRAGMA table_info` execution only extends the trace: the data, the
snapshot, the closed flag and the faults are untouched on every branch. -/
lemma engExec_pragma_state (e : Engine) (t : String) :
    (engExec e (pragmaQuery t) [] (Stmt.pragmaInfo t)).2 =
      { e with trace := e.trace ++ [EngineCall.execCall (pragmaQuery t) []] } := by
  unfold engExec execStmt
  cases hc : e.closed <;> simp [stmtFault]
  · cases hf : e.faults.pragmaFault <;> simp
    cases hft : findTable e.db t <;> simp [hft]

/-- `get_table_schema` only extends the trace of the state it returns. -/
lemma get_table_schema_state (o : ORM) (t : String) :
    (get_table_schema o t).2 =
      { o with engine :=
        { o.engine with trace := o.engine.trace ++ [EngineCall.execCall (pragmaQuery t) []] } } := by
  have h := engExec_pragma_state o.engine t
  unfold get_table_schema
  cases hx : engExec o.engine (pragmaQuery t) [] (Stmt.pragmaInfo t) with
  | mk r e =>
    rw [hx] at h
    cases r <;> simp_all

/-- The validation loop of `create` only ever produces a `ValueError` or a
`TypeError`. -/
lemma validateCreate_kind (t : String) (schema : List (String × String)) :
    ∀ (kw : List (String × Value)) (err : PyError), validateCreate t schema kw = some err →
      (∃ m, err = PyError.valueError m) ∨ (∃ m, err = PyError.typeError m) := by
  intro kw
  induction kw with
  | nil => intro err h; simp [validateCreate] at h
  | cons p rest ih =>
    intro err h
    obtain ⟨c, v⟩ := p
    cases hl : lookupPair schema c with
    | none =>
      simp [validateCreate, hl] at h
      exact Or.inl ⟨_, h.symm⟩
    | some dtype =>
      by_cases ht : typeOk dtype v = true
      · simp [validateCreate, hl, ht] at h
        exact ih err h
      · simp [validateCreate, hl, ht] at h
        exact Or.inr ⟨_, h.symm⟩

/-- C6: for insert and update, every validation failure (empty value set,
empty filter set, unknown column, type mismatch, missing table) raises a
`ValueError`/`TypeError` before any statement is executed and before any
transaction is opened: `in_transaction`, the data and the engine
transaction state are exactly as before the call, and no engine call
beyond the schema lookup was issued. -/
theorem c6_validation_precedes_transaction
    (o : ORM) (t : String) (kw fs : List (String × Value)) :
    (kw = [] →
      create o t kw = (Except.error (PyError.valueError "No data provided for insertion"), o)) ∧
    (kw ≠ [] → (get_table_schema o t).1 = [] →
      ((create o t kw).1 = Except.error (PyError.valueError
          ("Table " ++ t ++ " does not exist or could not be retrieved")) ∧
       (create o t kw).2.in_transaction = o.in_transaction ∧
       (create o t kw).2.engine.db = o.engine.db ∧
       (create o t kw).2.engine.snapshot = o.engine.snapshot ∧
       (create o t kw).2.engine.trace =
         o.engine.trace ++ [EngineCall.execCall (pragmaQuery t) []])) ∧
    (∀ err, kw ≠ [] → (get_table_schema o t).1 ≠ [] →
      validateCreate t (get_table_schema o t).1 kw = some err →
      ((create o t kw).1 = Except.error err ∧
       ((∃ m, err = PyError.valueError m) ∨ (∃ m, err = PyError.typeError m)) ∧
       (create o t kw).2.in_transaction = o.in_transaction ∧
       (create o t kw).2.engine.db = o.engine.db ∧
       (create o t kw).2.engine.snapshot = o.engine.snapshot ∧
       (create o t kw).2.engine.trace =
         o.engine.trace ++ [EngineCall.execCall (pragmaQuery t) []])) ∧
    (fs = [] ∨ kw = [] →
      update o t fs kw =
        (Except.error (PyError.valueError "Both filters and update data must be provided"), o)) := by
  refine ⟨?_, ?_, ?_, ?_⟩
  · intro hk
    simp [create, hk]
  · intro hk hempty
    have hst := get_table_schema_state o t
    simp [create, hk, hempty, hst]
  · intro err hk hne hval
    have hst := get_table_schema_state o t
    have hkind := validateCreate_kind t (get_table_schema o t).1 kw err hval
    simp [create, hk, hne, hval, hst, hkind]
  · intro hv
    simp [update, hv]

/-- Witness for C6: inserting into an unknown column raises the
validation `ValueError` with the store untouched beyond the schema
lookup. -/
theorem c6_validation_precedes_transaction_witness :
    ((create (initORM usersDb noFaults) "users" [("bogus", Value.vInt 1)]).1 =
      Except.error (PyError.valueError "Column bogus does not exist in table users") ∧
     ((∃ m, PyError.valueError "Column bogus does not exist in table users"
        = PyError.valueError m) ∨
      (∃ m, PyError.valueError "Column bogus does not exist in table users"
        = PyError.typeError m)) ∧
     (create (initORM usersDb noFaults) "users" [("bogus", Value.vInt 1)]).2.in_transaction =
       (initORM usersDb noFaults).in_transaction ∧
     (create (initORM usersDb noFaults) "users" [("bogus", Value.vInt 1)]).2.engine.db =
       (initORM usersDb noFaults).engine.db ∧
     (create (initORM usersDb noFaults) "users" [("bogus", Value.vInt 1)]).2.engine.snapshot =
       (initORM usersDb noFaults).engine.snapshot ∧
     (create (initORM usersDb noFaults) "users" [("bogus", Value.vInt 1)]).2.engine.trace =
       (initORM usersDb noFaults).engine.trace ++
         [EngineCall.execCall (pragmaQuery "users") []]) :=
  (c6_validation_precedes_transaction (initORM usersDb noFaults) "users"
      [("bogus", Value.vInt 1)] []).2.2.1
    (PyError.valueError "Column bogus does not exist in table users")
    (by decide) (by decide) (by decide)

/-- The store of the test suite right after `close()`: the connection
attribute is nulled but the cursor still points at the closed engine. -/
def closedORM : ORM := (close (initORM usersDb noFaults)).2

/-- C7 (counterexample): the claim asserts every operation after `close`
fails with a clear "connection closed" error rather than crashing or
silently returning an empty/none result.  On the closed store, `get`
silently returns `None`, `exists` returns `False`, `count` returns `0` and
`filter` returns `[]` — the closed-database error is swallowed by the
read-path handlers — and `begin_transaction` fails with an
`AttributeError` on the `None` connection, not a connection-closed
error. -/
theorem c7_counterexample_silent_reads_after_close :
    (get closedORM "users" [("name", Value.vStr "Alice")]).1 = Except.ok none ∧
    (existsRow closedORM "users" [("name", Value.vStr "Alice")]).1 = Except.ok false ∧
    (count closedORM "users" []).1 = Except.ok 0 ∧
    (filter closedORM "users" []).1 = Except.ok [] ∧
    (begin_transaction closedORM).1 =
      Except.error (PyError.attributeError "NoneType object has no attribute execute") := by
  refine ⟨by decide, by decide, by decide, by decide, by decide⟩

/-- C7 (amended): after `close`, no operation reports a connection-closed
error.  Every read path swallows the closed-database error and silently
returns its empty/none default (`get` → none, `filter`/`all` → `[]`,
`exists` → false, `count` → 0, `get_table_schema` → empty mapping);
`begin_transaction` and `commit_transaction` crash with an
`AttributeError` on the nulled connection; `create` fails with the
misleading table-missing `ValueError` (its schema lookup returned empty);
`update` and `delete` entered outside a transaction crash with the
begin-path `AttributeError`; `rollback_transaction` outside a transaction
silently succeeds. -/
theorem c7_operations_after_close
    (o : ORM) (t : String) (kw fs : List (String × Value))
    (hconn : o.hasConn = false) (hcl : o.engine.closed = true) :
    (kw ≠ [] → (get o t kw).1 = Except.ok none) ∧
    (filter o t kw).1 = Except.ok [] ∧
    (all o t).1 = Except.ok [] ∧
    (kw ≠ [] → (existsRow o t kw).1 = Except.ok false) ∧
    (count o t kw).1 = Except.ok 0 ∧
    (get_table_schema o t).1 = [] ∧
    (begin_transaction o).1 =
      Except.error (PyError.attributeError "NoneType object has no attribute execute") ∧
    (commit_transaction o).1 =
      Except.error (PyError.attributeError "NoneType object has no attribute commit") ∧
    (o.in_transaction = false → (rollback_transaction o).1 = Except.ok ()) ∧
    (kw ≠ [] → (create o t kw).1 = Except.error (PyError.valueError
      ("Table " ++ t ++ " does not exist or could not be retrieved"))) ∧
    (o.in_transaction = false → fs ≠ [] → kw ≠ [] → (update o t fs kw).1 =
      Except.error (PyError.attributeError "NoneType object has no attribute execute")) ∧
    (o.in_transaction = false → (delete o t kw).1 =
      Except.error (PyError.attributeError "NoneType object has no attribute execute")) := by
  refine ⟨?_, ?_, ?_, ?_, ?_, ?_, ?_, ?_, ?_, ?_, ?_, ?_⟩
  · intro hk
    simp [get, engExec, hk, hcl]
  · by_cases hk : kw = [] <;> simp [filter, engExec, hk, hcl]
  · simp [all, engExec, hcl]
  · intro hk
    simp [existsRow, engExec, hk, hcl]
  · by_cases hk : kw = [] <;> simp [count, engExec, hk, hcl]
  · simp [get_table_schema, engExec, hcl]
  · simp [begin_transaction, hconn]
  · simp [commit_transaction, hconn]
  · intro hin
    simp [rollback_transaction, hin]
  · intro hk
    simp [create, get_table_schema, engExec, hk, hcl]
  · intro hin hf hk
    simp [update, updateTryBlock, begin_transaction, hin, hf, hk, hconn]
  · intro hin
    simp [delete, deleteTryBlock, begin_transaction, hin, hconn]

/-- Witness for C7's amended statement on the concrete closed store. -/
theorem c7_operations_after_close_witness :
    ((([("name", Value.vStr "Alice")] : List (String × Value)) ≠ []) ∧
     (get closedORM "users" [("name", Value.vStr "Alice")]).1 = Except.ok none) ∧
    (commit_transaction closedORM).1 =
      Except.error (PyError.attributeError "NoneType object has no attribute commit") :=
  ⟨⟨by decide,
    (c7_operations_after_close closedORM "users" [("name", Value.vStr "Alice")] []
      rfl rfl).1 (by decide)⟩,
   (c7_operations_after_close closedORM "users" [("name", Value.vStr "Alice")] []
      rfl rfl).2.2.2.2.2.2.2.1⟩

/-- A store inside an explicit transaction whose engine fails both the
commit and the cleanup rollback. -/
def doubleFaultORM : ORM :=
  { hasConn := true
    engine := { db := usersDb, snapshot := some usersDb, closed := false,
                faults := commitAndRollbackFault, trace := [] }
    in_transaction := true
    lastrowid := 0
    rowcount := 0 }

/-- A store inside an explicit transaction whose engine fails the commit
but still performs rollbacks. -/
def commitFaultORM : ORM :=
  { hasConn := true
    engine := { db := usersDb, snapshot := some usersDb, closed := false,
                faults := onlyCommitFault, trace := [] }
    in_transaction := true
    lastrowid := 0
    rowcount := 0 }

/-- C8 (counterexample): the claim asserts `commit_transaction` sets
`in_transaction` to false regardless of whether the engine commit succeeds
or fails, attempting a best-effort rollback and raising a
TransactionError on failure.  When the commit fails and the cleanup
rollback also fails, the rollback error escapes before the
`in_transaction = False` assignment runs: the flag stays true and the
raised error is the raw engine error, not the transaction error. -/
theorem c8_counterexample_double_failure_keeps_flag :
    (commit_transaction doubleFaultORM).2.in_transaction = true ∧
    (commit_transaction doubleFaultORM).1 =
      Except.error (PyError.sqliteError "rollback fault") := by
  refine ⟨by decide, by decide⟩

/-- C8 (amended): `commit_transaction` clears `in_transaction` when the
engine commit succeeds, and also when the commit fails but the best-effort
cleanup rollback succeeds — in that case raising a transaction-commit
error carrying the cause; but when the cleanup rollback itself fails, the
rollback's engine error propagates and `in_transaction` is left
unchanged. -/
theorem c8_commit_clears_flag_unless_rollback_fails
    (o : ORM) (h1 : o.hasConn = true) (h2 : o.engine.closed = false) :
    (o.engine.faults.commitFault = false →
      ((commit_transaction o).1 = Except.ok () ∧
       (commit_transaction o).2.in_transaction = false ∧
       (commit_transaction o).2.engine.snapshot = none ∧
       (commit_transaction o).2.engine.trace =
         o.engine.trace ++ [EngineCall.commitCall])) ∧
    (o.engine.faults.commitFault = true → o.engine.faults.rollbackFault = false →
      ((commit_transaction o).1 =
         Except.error (PyError.genericExc "Transaction commit failed: commit fault") ∧
       (commit_transaction o).2.in_transaction = false ∧
       (commit_transaction o).2.engine.snapshot = none ∧
       (commit_transaction o).2.engine.trace =
         o.engine.trace ++ [EngineCall.commitCall, EngineCall.rollbackCall])) ∧
    (o.engine.faults.commitFault = true → o.engine.faults.rollbackFault = true →
      ((commit_transaction o).1 = Except.error (PyError.sqliteError "rollback fault") ∧
       (commit_transaction o).2.in_transaction = o.in_transaction ∧
       (commit_transaction o).2.engine.snapshot = o.engine.snapshot ∧
       (commit_transaction o).2.engine.trace =
         o.engine.trace ++ [EngineCall.commitCall, EngineCall.rollbackCall])) := by
  refine ⟨?_, ?_, ?_⟩ <;>
    intro hcf <;>
    first
    | (intro hrf
       cases hs : o.engine.snapshot <;>
         simp [commit_transaction, engCommit, engRollback, h1, h2, hcf, hrf, hs,
               List.append_assoc])
    | simp [commit_transaction, engCommit, engRollback, h1, h2, hcf, List.append_assoc]

/-- Witness for C8's amended statement: a failing commit with a working
rollback still clears the flag and raises the commit error. -/
theorem c8_commit_clears_flag_unless_rollback_fails_witness :
    (commit_transaction commitFaultORM).1 =
      Except.error (PyError.genericExc "Transaction commit failed: commit fault") ∧
    (commit_transaction commitFaultORM).2.in_transaction = false ∧
    (commit_transaction commitFaultORM).2.engine.snapshot = none ∧
    (commit_transaction commitFaultORM).2.engine.trace =
      commitFaultORM.engine.trace ++ [EngineCall.commitCall, EngineCall.rollbackCall] :=
  (c8_commit_clears_flag_unless_rollback_fails commitFaultORM rfl rfl).2.1 rfl rfl

/-- A store whose engine fails every read (SELECT and PRAGMA). -/
def faultyReadsORM : ORM :=
  initORM usersDb { selectFault := true, pragmaFault := true }

/-- C9: every read-path failure is caught locally and converted to the
empty/none default instead of propagating: when the engine faults the
query — and likewise when the queried table does not exist — `get` returns
none, `filter` and `all` return `[]`, `exists` returns false, `count`
returns 0, and `get_table_schema` returns the empty mapping. -/
theorem c9_read_failures_become_empty (o : ORM) (t : String) (kw : List (String × Value)) :
    (o.engine.faults.selectFault = true →
      ((kw ≠ [] → (get o t kw).1 = Except.ok none) ∧
       (filter o t kw).1 = Except.ok [] ∧
       (all o t).1 = Except.ok [] ∧
       (kw ≠ [] → (existsRow o t kw).1 = Except.ok false) ∧
       (count o t kw).1 = Except.ok 0)) ∧
    (o.engine.faults.pragmaFault = true → (get_table_schema o t).1 = []) ∧
    (o.engine.closed = false → o.engine.faults.selectFault = false →
     findTable o.engine.db t = none →
      ((kw ≠ [] → (get o t kw).1 = Except.ok none) ∧
       (filter o t kw).1 = Except.ok [] ∧
       (all o t).1 = Except.ok [] ∧
       (kw ≠ [] → (existsRow o t kw).1 = Except.ok false) ∧
       (count o t kw).1 = Except.ok 0)) := by
  refine ⟨?_, ?_, ?_⟩
  · intro hf
    refine ⟨?_, ?_, ?_, ?_, ?_⟩ <;>
      cases hc : o.engine.closed <;>
      first
      | (intro hk
         simp [get, existsRow, engExec, stmtFault, hk, hf, hc])
      | (by_cases hk : kw = [] <;>
         simp [filter, all, count, engExec, stmtFault, hk, hf, hc])
  · intro hp
    cases hc : o.engine.closed <;>
      simp [get_table_schema, engExec, stmtFault, hp, hc]
  · intro hc hf hft
    refine ⟨?_, ?_, ?_, ?_, ?_⟩ <;>
      first
      | (intro hk
         simp [get, existsRow, engExec, stmtFault, execStmt, hk, hf, hc, hft])
      | (by_cases hk : kw = [] <;>
         simp [filter, all, count, engExec, stmtFault, execStmt, hk, hf, hc, hft])

/-- Witness for C9 on a store whose reads all fail: every read returns its
empty default. -/
theorem c9_read_failures_become_empty_witness :
    ((get faultyReadsORM "users" [("name", Value.vStr "Alice")]).1 = Except.ok none ∧
     (filter faultyReadsORM "users" [("name", Value.vStr "Alice")]).1 = Except.ok [] ∧
     (all faultyReadsORM "users").1 = Except.ok [] ∧
     (existsRow faultyReadsORM "users" [("name", Value.vStr "Alice")]).1 = Except.ok false ∧
     (count faultyReadsORM "users" [("name", Value.vStr "Alice")]).1 = Except.ok 0) ∧
    (get_table_schema faultyReadsORM "users").1 = [] := by
  have h := c9_read_failures_become_empty faultyReadsORM "users"
    [("name", Value.vStr "Alice")]
  have h1 := h.1 rfl
  have h2 := h.2.1 rfl
  exact ⟨⟨h1.1 (by decide), h1.2.1, h1.2.2.1, h1.2.2.2.1 (by decide), h1.2.2.2.2⟩, h2⟩

/-- C10: for every table name and non-empty filter set evaluated against
the same store, `exists` returns true iff `get` returns a row; and both
raise a `ValueError` on an empty filter set. -/
theorem c10_exists_agrees_with_get (o : ORM) (t : String) (kw : List (String × Value)) :
    (kw ≠ [] →
      (((existsRow o t kw).1 = Except.ok true) ↔
        (∃ row, (get o t kw).1 = Except.ok (some row)))) ∧
    (get o t []).1 = Except.error (PyError.valueError "No conditions provided for the query") ∧
    (existsRow o t []).1 =
      Except.error (PyError.valueError "Conditions must be provided to check existence") := by
  refine ⟨?_, by simp [get], by simp [existsRow]⟩
  intro hk
  by_cases hc : o.engine.closed = true
  · simp [get, existsRow, engExec, hk, hc]
  · by_cases hf : o.engine.faults.selectFault = true
    · simp [get, existsRow, engExec, stmtFault, hk, hc, hf]
    · cases hft : findTable o.engine.db t with
      | none => simp [get, existsRow, engExec, stmtFault, execStmt, hk, hc, hf, hft]
      | some tbl =>
        by_cases hck : colsKnown tbl (kw.map (fun p => p.1)) = true
        · cases hm : tbl.rows.filter
              (condsHold tbl ((kw.map (fun p => p.1)).zip (kw.map (fun p => p.2)))) with
          | nil =>
            simp [get, existsRow, engExec, stmtFault, execStmt, rowsOf, hk, hc, hf, hft,
                  hck, hm]
          | cons r rest =>
            simp [get, existsRow, engExec, stmtFault, execStmt, rowsOf, hk, hc, hf, hft,
                  hck, hm]
        · simp [get, existsRow, engExec, stmtFault, execStmt, hk, hc, hf, hft, hck]

/-- Witness for C10 on the concrete store: the equivalence holds for a
filter matching a row. -/
theorem c10_exists_agrees_with_get_witness :
    ((existsRow (initORM usersDb noFaults) "users" [("age", Value.vInt 30)]).1 = Except.ok true)
      ↔ (∃ row, (get (initORM usersDb noFaults) "users" [("age", Value.vInt 30)]).1 =
          Except.ok (some row)) :=
  (c10_exists_agrees_with_get (initORM usersDb noFaults) "users"
    [("age", Value.vInt 30)]).1 (by decide)

end DBWork
